import Mathlib

/-!
Shallow embedding of the VoiceTask repository: the client state container
(src/unnamed/part_000) and the transcription endpoint
(src/src/app/api/transcribe/route.ts).  External effects (microphone access,
fetch, the two AI providers, JSON parsing of provider output, Math.random id
generation, Date.now timestamps) are passed in as explicit parameters or
outcome values; everything else follows the source line by line.
-/

namespace VoiceTask

/-- The `category` union type of the Task interface. -/
inductive Category
  | urgent
  | later
  | completed
  deriving DecidableEq, Repr

/-- The `priority` union type of the Task interface. -/
inductive Priority
  | low
  | medium
  | high
  deriving DecidableEq, Repr

/-- The Task interface of the client. -/
structure Task where
  id : String
  text : String
  category : Category
  createdAt : String
  dueDate : Option String := none
  priority : Priority
  deriving DecidableEq, Repr

/-- The Recording interface of the client; the audio blob is modelled as raw bytes. -/
structure Recording where
  id : String
  blob : List Nat
  url : String
  createdAt : String
  duration : Nat
  transcript : Option String := none
  deriving DecidableEq, Repr

/-- The `activeTab` union type of the client. -/
inductive Tab
  | record
  | tasks
  | recordings
  | settings
  deriving DecidableEq, Repr

/-- The client state: the useState hooks plus the two useRef cells of Home.
The MediaRecorder ref is modelled by the id of the stream it captures. -/
structure ClientState where
  activeTab : Tab
  isRecording : Bool
  recordings : List Recording
  tasks : List Task
  transcribing : Bool
  selectedRecording : Option Recording
  mediaRecorder : Option Nat
  chunks : List (List Nat)
  deriving DecidableEq, Repr

/-- The JSON body returned by the endpoint on success, as the client reads it:
either key may be absent (`undefined`), and when present holds a string array. -/
structure ClassifyResponse where
  urgent : Option (List String)
  later : Option (List String)
  deriving DecidableEq, Repr

/-- Outcome of the `fetch` + `response.json()` pair inside transcribeRecording:
either a parsed body, or a thrown network/parse error caught by the catch block. -/
inductive FetchOutcome
  | ok (data : ClassifyResponse)
  | failure
  deriving DecidableEq, Repr

/-- The transcript expression `data.urgent?.concat(data.later)?.join(String.chr 10)`
of the client, with JavaScript semantics: if `urgent` is undefined the optional
chain yields undefined; if `later` is undefined, `Array.concat` appends the single
element `undefined`, which `join` renders as the empty string. -/
def transcriptText (urgent later : Option (List String)) : Option String :=
  match urgent with
  | none => none
  | some u =>
    match later with
    | some l => some (String.intercalate "\n" (u ++ l))
    | none => some (String.intercalate "\n" (u ++ [""]))

/-- One `.map` over a classification array in transcribeRecording, building Task
records with a fixed category and priority; `freshId` supplies the Math.random
id drawn at each position and `now` the serialized creation date. -/
def tasksFrom (cat : Category) (prio : Priority) (now : String)
    (freshId : Nat → String) (texts : List String) : List Task :=
  texts.enum.map (fun p =>
    { id := freshId p.1, text := p.2, category := cat, createdAt := now,
      priority := prio })

/-- The transcribeRecording handler of the client.  It sets `transcribing`,
performs the fetch (outcome supplied), and on a body with a truthy `urgent` or
`later` key maps the arrays to tasks, prepends them, attaches the transcript to
the recording with the originating id, and switches to the tasks tab; the
finally block clears `transcribing` on every path. -/
def transcribeRecording (rec : Recording) (outcome : FetchOutcome)
    (urgentIds laterIds : Nat → String) (now : String)
    (s : ClientState) : ClientState :=
  let s1 : ClientState := { s with transcribing := true }
  let s2 : ClientState :=
    match outcome with
    | .failure => s1
    | .ok data =>
      if data.urgent.isSome || data.later.isSome then
        let newUrgent := tasksFrom .urgent .high now urgentIds (data.urgent.getD [])
        let newLater := tasksFrom .later .medium now laterIds (data.later.getD [])
        { s1 with
          tasks := newUrgent ++ newLater ++ s1.tasks,
          recordings := s1.recordings.map (fun r =>
            if r.id = rec.id then
              { r with transcript := transcriptText data.urgent data.later }
            else r),
          activeTab := .tasks }
      else s1
  { s2 with transcribing := false }

/-- The deleteRecording handler: filter the list by id, and clear the selected
pointer when it referenced the deleted id. -/
def deleteRecording (i : String) (s : ClientState) : ClientState :=
  let s1 : ClientState := { s with recordings := s.recordings.filter (fun r => r.id ≠ i) }
  if s1.selectedRecording.map (fun r => r.id) = some i then
    { s1 with selectedRecording := none }
  else s1

/-- The toggleTaskComplete handler: on the matching id, category becomes `later`
when it was `completed` and `completed` otherwise. -/
def toggleTaskComplete (i : String) (s : ClientState) : ClientState :=
  { s with tasks := s.tasks.map (fun t =>
      if t.id = i then
        { t with category :=
            if t.category = Category.completed then Category.later
            else Category.completed }
      else t) }

/-- The deleteTask handler. -/
def deleteTask (i : String) (s : ClientState) : ClientState :=
  { s with tasks := s.tasks.filter (fun t => t.id ≠ i) }

/-- The updateTaskPriority handler. -/
def updateTaskPriority (i : String) (p : Priority) (s : ClientState) : ClientState :=
  { s with tasks := s.tasks.map (fun t =>
      if t.id = i then { t with priority := p } else t) }

/-- The `urgentTasks` display bucket of the render body. -/
def urgentTasks (s : ClientState) : List Task :=
  s.tasks.filter (fun t => t.category = Category.urgent)

/-- The `laterTasks` display bucket of the render body. -/
def laterTasks (s : ClientState) : List Task :=
  s.tasks.filter (fun t => t.category = Category.later)

/-- The `completedTasks` display bucket of the render body. -/
def completedTasks (s : ClientState) : List Task :=
  s.tasks.filter (fun t => t.category = Category.completed)

/-- Outcome of `navigator.mediaDevices.getUserMedia`: a granted stream
(identified by a number) or a rejection caught by the catch block. -/
inductive MicOutcome
  | granted (streamId : Nat)
  | denied
  deriving DecidableEq, Repr

/-- The startRecording handler as far as its synchronous state effects go: on
grant it installs a fresh MediaRecorder for the stream, resets the chunk
buffer, starts the recorder and sets `isRecording`; on denial it only logs and
alerts.  The later `onstop` recording creation is a separate event and not part
of this call.  Note there is no check of `isRecording` anywhere in the body. -/
def startRecording (mic : MicOutcome) (s : ClientState) : ClientState :=
  match mic with
  | .denied => s
  | .granted streamId =>
    { s with mediaRecorder := some streamId, chunks := [], isRecording := true }

/-- The stopRecording handler: guarded by the ref being set and `isRecording`. -/
def stopRecording (s : ClientState) : ClientState :=
  if s.mediaRecorder.isSome && s.isRecording then { s with isRecording := false }
  else s

/-- The onClick of the round record button:
`isRecording ? stopRecording : startRecording`. -/
def recordButtonClick (mic : MicOutcome) (s : ClientState) : ClientState :=
  if s.isRecording then stopRecording s else startRecording mic s

/-- Where the POST handler of route.ts leaves the straight-line pipeline and
with what data: `formData()` threw; the `audio` field was absent; one of the
two provider calls (or anything else in the outer try) threw; the
classification call returned no content; or it returned content `c`. -/
inductive PostScenario
  | formDataError
  | noAudio
  | upstreamError
  | noContent
  | content (c : String)
  deriving DecidableEq, Repr

/-- A JSON response body of the endpoint: an error object or the parsed
classification object returned verbatim. -/
inductive ApiBody
  | errObj (msg : String)
  | tasksObj (r : ClassifyResponse)
  deriving DecidableEq, Repr

/-- A NextResponse: HTTP status and JSON body. -/
structure ApiResponse where
  status : Nat
  body : ApiBody
  deriving DecidableEq, Repr

/-- The POST handler of route.ts.  `parse` stands for `JSON.parse` on the
classification content, returning none exactly when parsing throws. -/
def POST (scenario : PostScenario) (parse : String → Option ClassifyResponse) :
    ApiResponse :=
  match scenario with
  | .formDataError => ⟨500, .errObj "Failed to transcribe audio"⟩
  | .noAudio => ⟨400, .errObj "No audio file provided"⟩
  | .upstreamError => ⟨500, .errObj "Failed to transcribe audio"⟩
  | .noContent => ⟨500, .errObj "No response from AI"⟩
  | .content c =>
    match parse c with
    | none => ⟨500, .errObj "Failed to parse AI response"⟩
    | some v => ⟨200, .tasksObj v⟩

/-- Observable shape of a task for the classification claims: its text,
category and priority. -/
def taskView (t : Task) : String × Category × Priority :=
  (t.text, t.category, t.priority)

lemma enumFrom_tasksFrom_view (cat : Category) (prio : Priority) (now : String)
    (g : Nat → String) :
    ∀ (n : Nat) (texts : List String),
      ((List.enumFrom n texts).map (fun p =>
        ({ id := g p.1, text := p.2, category := cat, createdAt := now,
           priority := prio } : Task))).map taskView
        = texts.map (fun x => (x, cat, prio)) := by
  intro n texts
  induction texts generalizing n with
  | nil => rfl
  | cons x xs ih => simp [List.enumFrom, taskView, ih]

lemma tasksFrom_view (cat : Category) (prio : Priority) (now : String)
    (g : Nat → String) (texts : List String) :
    (tasksFrom cat prio now g texts).map taskView
      = texts.map (fun x => (x, cat, prio)) := by
  unfold tasksFrom List.enum
  exact enumFrom_tasksFrom_view cat prio now g 0 texts

/-- C1: every string of the urgent array of a processed classification response
becomes a task with category urgent and priority high, every string of the
later array one with category later and priority medium, and the resulting task
list is the urgent tasks, then the later tasks, then the previously existing
tasks, in order. -/
theorem transcribe_classification_tasks (rec : Recording) (data : ClassifyResponse)
    (uIds lIds : Nat → String) (now : String) (s : ClientState) :
    (transcribeRecording rec (.ok data) uIds lIds now s).tasks.map taskView
      = (data.urgent.getD []).map (fun x => (x, Category.urgent, Priority.high))
        ++ (data.later.getD []).map (fun x => (x, Category.later, Priority.medium))
        ++ s.tasks.map taskView := by
  unfold transcribeRecording
  rcases hu : data.urgent with _ | u <;> rcases hl : data.later with _ | l <;>
    simp [hu, hl, tasksFrom_view]

lemma filter_category_length (l : List Task) :
    (l.filter (fun t => t.category = Category.urgent)).length
      + (l.filter (fun t => t.category = Category.later)).length
      + (l.filter (fun t => t.category = Category.completed)).length
      = l.length := by
  induction l with
  | nil => rfl
  | cons t l ih =>
    rcases h : t.category <;> simp [List.filter_cons, h] <;> omega

/-- C2: at every client state the urgent, later and completed display buckets
partition the task set: their lengths sum to the full list length and every
task of the list lies in exactly one bucket. -/
theorem buckets_partition (s : ClientState) :
    (urgentTasks s).length + (laterTasks s).length + (completedTasks s).length
        = s.tasks.length
    ∧ ∀ t ∈ s.tasks,
        (t ∈ urgentTasks s ∧ t ∉ laterTasks s ∧ t ∉ completedTasks s)
      ∨ (t ∉ urgentTasks s ∧ t ∈ laterTasks s ∧ t ∉ completedTasks s)
      ∨ (t ∉ urgentTasks s ∧ t ∉ laterTasks s ∧ t ∈ completedTasks s) := by
  refine ⟨filter_category_length s.tasks, ?_⟩
  intro t ht
  unfold urgentTasks laterTasks completedTasks
  rcases h : t.category <;> simp [List.mem_filter, ht, h]

/-- A concrete sample task used by witnesses. -/
def sampleTask : Task :=
  { id := "a", text := "x", category := Category.later, createdAt := "d",
    priority := Priority.low }

/-- A concrete sample recording used by witnesses. -/
def sampleRec : Recording :=
  { id := "r1", blob := [0], url := "u", createdAt := "d", duration := 0 }

/-- A concrete sample client state holding only `sampleTask`. -/
def sampleState : ClientState :=
  { activeTab := Tab.tasks, isRecording := false, recordings := [],
    tasks := [sampleTask], transcribing := false, selectedRecording := none,
    mediaRecorder := none, chunks := [] }

/-- C2 witness at a concrete one-task state. -/
theorem buckets_partition_witness : sampleTask ∈ laterTasks sampleState := by
  have h := (buckets_partition sampleState).2 sampleTask (by simp [sampleState])
  rcases h with ⟨h1, _, _⟩ | ⟨_, h2, _⟩ | ⟨_, _, h3⟩
  · exact absurd h1 (by decide)
  · exact h2
  · exact absurd h3 (by decide)

/-- C3: whatever the outcome of the fetch (success, body lacking both keys, or
a thrown error), the transcribing flag is false once transcribeRecording
completes. -/
theorem transcribing_cleared (rec : Recording) (outcome : FetchOutcome)
    (uIds lIds : Nat → String) (now : String) (s : ClientState) :
    (transcribeRecording rec outcome uIds lIds now s).transcribing = false := rfl

/-- A concrete client state holding one task that is already completed. -/
def completedState : ClientState :=
  { activeTab := Tab.tasks, isRecording := false, recordings := [],
    tasks := [{ id := "a", text := "x", category := Category.completed,
                createdAt := "d", priority := Priority.low }],
    transcribing := false, selectedRecording := none, mediaRecorder := none,
    chunks := [] }

/-- C4 counterexample: toggling a task that starts in the completed category
twice leaves it completed, not later, so the double toggle does not yield
category later regardless of the original category. -/
theorem toggle_twice_counterexample :
    ((toggleTaskComplete "a" (toggleTaskComplete "a" completedState)).tasks.map
        (fun t => t.category)) = [Category.completed]
    ∧ Category.completed ≠ Category.later := by
  constructor
  · rfl
  · decide

/-- C4 amended: a single toggle sends a completed task to later and any other
task to completed; hence the double toggle yields later exactly when the task
did not start completed, and returns an originally completed task to
completed.  Stated positionally over the whole task list. -/
theorem toggle_twice_amended (s : ClientState) (i : String) (k : Nat) :
    ((toggleTaskComplete i s).tasks[k]?).map (fun t => t.category)
      = (s.tasks[k]?).map (fun t =>
          if t.id = i then
            (if t.category = Category.completed then Category.later
             else Category.completed)
          else t.category)
    ∧ ((toggleTaskComplete i (toggleTaskComplete i s)).tasks[k]?).map
          (fun t => t.category)
      = (s.tasks[k]?).map (fun t =>
          if t.id = i then
            (if t.category = Category.completed then Category.completed
             else Category.later)
          else t.category) := by
  unfold toggleTaskComplete
  simp only [List.getElem?_map, Option.map_map]
  rcases s.tasks[k]? with _ | t
  · exact ⟨rfl, rfl⟩
  · constructor <;>
      (by_cases hid : t.id = i <;>
        by_cases hc : t.category = Category.completed <;>
          simp [Function.comp, hid, hc])

/-- C5: when the fetch throws, or the parsed body lacks both the urgent and
the later keys, transcribeRecording leaves the task list, the recordings list
(hence every transcript) and the active tab unchanged. -/
theorem transcribe_failure_frame (rec : Recording) (outcome : FetchOutcome)
    (uIds lIds : Nat → String) (now : String) (s : ClientState)
    (h : outcome = FetchOutcome.failure
         ∨ outcome = FetchOutcome.ok { urgent := none, later := none }) :
    (transcribeRecording rec outcome uIds lIds now s).tasks = s.tasks
    ∧ (transcribeRecording rec outcome uIds lIds now s).recordings = s.recordings
    ∧ (transcribeRecording rec outcome uIds lIds now s).activeTab = s.activeTab := by
  rcases h with h | h <;> subst h <;> exact ⟨rfl, rfl, rfl⟩

/-- C5 witness at a concrete failing invocation. -/
theorem transcribe_failure_frame_witness :
    (transcribeRecording sampleRec FetchOutcome.failure (fun _ => "i")
        (fun _ => "j") "d" sampleState).tasks = sampleState.tasks := by
  exact (transcribe_failure_frame sampleRec FetchOutcome.failure (fun _ => "i")
    (fun _ => "j") "d" sampleState (Or.inl rfl)).1

/-- C6: the endpoint maps a missing audio field to 400 with the no-audio error
body, a contentless classification reply to 500 with the no-response body,
unparseable content to 500 with the parse-failure body, and any other thrown
failure of the pipeline (formData or a provider call) to 500 with the generic
body. -/
theorem endpoint_error_contract (parse : String → Option ClassifyResponse)
    (c : String) :
    POST PostScenario.noAudio parse
        = ⟨400, ApiBody.errObj "No audio file provided"⟩
    ∧ POST PostScenario.noContent parse
        = ⟨500, ApiBody.errObj "No response from AI"⟩
    ∧ (parse c = none →
        POST (PostScenario.content c) parse
          = ⟨500, ApiBody.errObj "Failed to parse AI response"⟩)
    ∧ POST PostScenario.formDataError parse
        = ⟨500, ApiBody.errObj "Failed to transcribe audio"⟩
    ∧ POST PostScenario.upstreamError parse
        = ⟨500, ApiBody.errObj "Failed to transcribe audio"⟩ := by
  refine ⟨rfl, rfl, ?_, rfl, rfl⟩
  intro h
  simp only [POST, h]

/-- C6 witness: the parse-failure branch at concrete content with a parser
that rejects everything. -/
theorem endpoint_error_contract_witness :
    POST (PostScenario.content "not json") (fun _ => none)
      = ⟨500, ApiBody.errObj "Failed to parse AI response"⟩ := by
  exact (endpoint_error_contract (fun _ => none) "not json").2.2.1 rfl

/-- A concrete client state holding one transcript-free recording `sampleRec`. -/
def oneRecState : ClientState :=
  { activeTab := Tab.record, isRecording := false, recordings := [sampleRec],
    tasks := [], transcribing := false, selectedRecording := none,
    mediaRecorder := none, chunks := [] }

/-- C7 counterexample: a successful response carrying only the urgent key,
with urgent list containing the single string a.  The claim demands the
transcript equal the newline-join of the urgent strings followed by the (empty)
later strings, namely the one-character string a; the code attaches the string
a followed by a newline, because Array.concat of an undefined later key appends
an undefined element that join renders as an empty string. -/
theorem transcript_counterexample :
    ((transcribeRecording sampleRec
        (FetchOutcome.ok { urgent := some ["a"], later := none })
        (fun _ => "i") (fun _ => "j") "d" oneRecState).recordings.map
          (fun r => r.transcript)) = [some "a\n"]
    ∧ some "a\n"
        ≠ some (String.intercalate "\n" (["a"] ++ ([] : List String))) := by
  constructor
  · rfl
  · decide

/-- C7 amended: when the response carries both keys, the transcript attached
to every recording with the originating id is the newline-join of the urgent
strings followed by the later strings, and every other recording is returned
unchanged.  (With the later key absent the code appends a trailing newline,
and with the urgent key absent it attaches no transcript at all.) -/
theorem transcript_both_keys (rec : Recording) (u l : List String)
    (uIds lIds : Nat → String) (now : String) (s : ClientState) :
    (transcribeRecording rec (FetchOutcome.ok { urgent := some u, later := some l })
        uIds lIds now s).recordings
      = s.recordings.map (fun r =>
          if r.id = rec.id then
            { r with transcript := some (String.intercalate "\n" (u ++ l)) }
          else r) := by
  unfold transcribeRecording transcriptText
  simp

/-- C8: deleteRecording keeps exactly the recordings whose id differs from the
deleted id (preserving their order), clears the selected pointer precisely
when it referenced that id, and does not touch the task list. -/
theorem deleteRecording_spec (i : String) (s : ClientState) :
    (∀ r, r ∈ (deleteRecording i s).recordings ↔ (r ∈ s.recordings ∧ r.id ≠ i))
    ∧ (deleteRecording i s).recordings.Sublist s.recordings
    ∧ (deleteRecording i s).selectedRecording
        = (if s.selectedRecording.map (fun r => r.id) = some i then none
           else s.selectedRecording)
    ∧ (deleteRecording i s).tasks = s.tasks := by
  unfold deleteRecording
  by_cases h : s.selectedRecording.map (fun r => r.id) = some i <;>
    simp [h, List.mem_filter, List.filter_sublist, and_comm]

/-- C8 witness: deleting the id of the only recording of a concrete state in
which it is also selected. -/
theorem deleteRecording_spec_witness :
    sampleRec ∈ (deleteRecording "zz" oneRecState).recordings
    ∧ (deleteRecording "zz" oneRecState).tasks = oneRecState.tasks := by
  refine ⟨((deleteRecording_spec "zz" oneRecState).1 sampleRec).mpr ?_,
    (deleteRecording_spec "zz" oneRecState).2.2.2⟩
  refine ⟨by simp [oneRecState], by decide⟩

/-- A concrete client state that is mid-recording, with a buffered chunk. -/
def recordingState : ClientState :=
  { activeTab := Tab.record, isRecording := true, recordings := [],
    tasks := [], transcribing := false, selectedRecording := none,
    mediaRecorder := some 1, chunks := [[7]] }

/-- C9 counterexample: invoking startRecording while already recording (with
the microphone granted) is not a no-op: at a concrete mid-recording state it
empties the buffered chunk list and replaces the media recorder, so client
state changes. -/
theorem startRecording_counterexample :
    recordingState.isRecording = true
    ∧ startRecording (MicOutcome.granted 2) recordingState ≠ recordingState := by
  constructor
  · rfl
  · decide

/-- C9 amended: startRecording itself carries no isRecording guard: invoked
while recording with the microphone granted it resets the chunk buffer,
installs the new recorder and leaves isRecording true (the recordings list
untouched).  The only guard is in the UI: the record button dispatches
stopRecording, never startRecording, whenever isRecording is true. -/
theorem startRecording_guard_amended (s : ClientState) (mic : MicOutcome)
    (sid : Nat) (h : s.isRecording = true) :
    recordButtonClick mic s = stopRecording s
    ∧ (startRecording (MicOutcome.granted sid) s).isRecording = true
    ∧ (startRecording (MicOutcome.granted sid) s).chunks = []
    ∧ (startRecording (MicOutcome.granted sid) s).mediaRecorder = some sid
    ∧ (startRecording (MicOutcome.granted sid) s).recordings = s.recordings := by
  unfold recordButtonClick startRecording
  rw [h]
  exact ⟨rfl, rfl, rfl, rfl, rfl⟩

/-- C9 witness at the concrete mid-recording state. -/
theorem startRecording_guard_amended_witness :
    recordButtonClick (MicOutcome.granted 2) recordingState
        = stopRecording recordingState
    ∧ (startRecording (MicOutcome.granted 2) recordingState).chunks = [] := by
  refine ⟨(startRecording_guard_amended recordingState (MicOutcome.granted 2) 2
    rfl).1, (startRecording_guard_amended recordingState (MicOutcome.granted 2) 2
    rfl).2.2.1⟩

lemma map_id_of_no_match (i : String) (f : Task → Task) :
    ∀ l : List Task, (∀ t ∈ l, t.id ≠ i) →
      (l.map (fun t => if t.id = i then f t else t)) = l := by
  intro l
  induction l with
  | nil => intro _; rfl
  | cons t l ih =>
    intro h
    have ht : t.id ≠ i := h t (List.mem_cons_self t l)
    simp only [List.map_cons, if_neg ht, List.cons.injEq, true_and]
    exact ih (fun u hu => h u (List.mem_cons_of_mem t hu))

/-- C10: with an id that matches no task in the list, toggleTaskComplete,
deleteTask and updateTaskPriority all leave the task list exactly unchanged. -/
theorem absent_id_frame (i : String) (p : Priority) (s : ClientState)
    (h : ∀ t ∈ s.tasks, t.id ≠ i) :
    (toggleTaskComplete i s).tasks = s.tasks
    ∧ (deleteTask i s).tasks = s.tasks
    ∧ (updateTaskPriority i p s).tasks = s.tasks := by
  refine ⟨?_, ?_, ?_⟩
  · exact map_id_of_no_match i _ s.tasks h
  · unfold deleteTask
    simp only []
    rw [List.filter_eq_self]
    intro t ht
    simpa using h t ht
  · exact map_id_of_no_match i _ s.tasks h

/-- C10 witness at the concrete one-task state with a foreign id. -/
theorem absent_id_frame_witness :
    (toggleTaskComplete "zz" sampleState).tasks = sampleState.tasks
    ∧ (deleteTask "zz" sampleState).tasks = sampleState.tasks
    ∧ (updateTaskPriority "zz" Priority.high sampleState).tasks
        = sampleState.tasks := by
  exact absent_id_frame "zz" Priority.high sampleState (by decide)

end VoiceTask
